import Mathlib

/-!
Verification development for `src/reindex/reindexer.py` (an Elasticsearch
reindexing script).  The Python class `Reindexer` is embedded shallowly:

* `PyVal` models Python values produced by `json.loads` (None, bool, int,
  str, list, dict).
* `json_loads` models Python's `json.loads` on the JSON fragment relevant
  to mapping files (null, booleans, integers, strings with the common
  escapes, arrays, objects); floating-point literals and `\u` escapes are
  outside the model and make the parser fail, which is only ever used on
  concrete inputs that avoid them.
* `Reindexer` carries the fields set by `__init__` plus the `__body`
  attribute, which is `Option`al because Python raises `AttributeError`
  when the attribute was never assigned.
* The Elasticsearch cluster reached through the `elasticsearch` client
  library is modelled by `ESState` together with one transition function
  per client call used by the script (`esCreate`, `esReindexHelper`,
  `esDelete`, `esUpdateAliases`), following the documented behaviour of
  Elasticsearch: creating an existing index and deleting or reading a
  missing index raise errors (the script passes no `ignore=` argument),
  deleting an index drops the alias bindings that point at it, and a bulk
  write auto-creates a missing destination index.
* `Reindexer.reindex` runs the script's call chain, returning the final
  cluster state together with the ordered trace of requests it issued.
-/

set_option autoImplicit false

/-- A Python value as produced by `json.loads`: `None`, `bool`, `int`,
`str`, `list` and `dict` (modelled as an association list in insertion
order). -/
inductive PyVal where
  | none : PyVal
  | bool (b : Bool) : PyVal
  | int (n : Int) : PyVal
  | str (s : String) : PyVal
  | list (xs : List PyVal) : PyVal
  | dict (kvs : List (String × PyVal)) : PyVal

/-- Python dictionary lookup `d[k]` (as an `Option`; `Option.none` is a
`KeyError`). -/
def dictGet (kvs : List (String × PyVal)) (k : String) : Option PyVal :=
  match kvs with
  | [] => Option.none
  | (k2, v) :: rest => if k2 = k then some v else dictGet rest k

/-- Python dictionary assignment `d[k] = v`: overwrite in place when the key
exists, otherwise append (insertion order is preserved). -/
def dictSet (kvs : List (String × PyVal)) (k : String) (v : PyVal) :
    List (String × PyVal) :=
  match kvs with
  | [] => [(k, v)]
  | (k2, v2) :: rest => if k2 = k then (k2, v) :: rest else (k2, v2) :: dictSet rest k v

/-- The `\x7b` character (opening curly brace). -/
def lbraceChar : Char := Char.ofNat 123

/-- The `\x7d` character (closing curly brace). -/
def rbraceChar : Char := Char.ofNat 125

/-- Whitespace for Python's `str.strip` (ASCII fragment: space, tab,
newline, carriage return, form feed, vertical tab). -/
def isSpaceChar (c : Char) : Bool :=
  c = ' ' || c = '\t' || c = '\n' || c = '\r' || c = Char.ofNat 12 || c = Char.ofNat 11

/-- Python `line.strip()` on a character list (ASCII whitespace). -/
def pyStrip (cs : List Char) : List Char :=
  (((cs.dropWhile isSpaceChar).reverse).dropWhile isSpaceChar).reverse

/-- JSON inter-token whitespace (space, tab, newline, carriage return). -/
def jsonWsChar (c : Char) : Bool :=
  c = ' ' || c = '\t' || c = '\n' || c = '\r'

/-- Drop leading JSON whitespace. -/
def skipWs : List Char → List Char
  | [] => []
  | c :: cs => if jsonWsChar c then skipWs cs else c :: cs

/-- Parse the body of a JSON string after the opening quote, returning the
decoded characters and the remaining input.  Supports the escapes
`\" \\ \/ \n \t \r \b \f`; a `\u` escape or an unterminated string fails. -/
def parseStrChars : List Char → Option (List Char × List Char)
  | [] => Option.none
  | c :: cs =>
    if c = '"' then some ([], cs)
    else if c = '\\' then
      match cs with
      | [] => Option.none
      | e :: cs2 =>
        let d? : Option Char :=
          if e = '"' then some '"'
          else if e = '\\' then some '\\'
          else if e = '/' then some '/'
          else if e = 'n' then some '\n'
          else if e = 't' then some '\t'
          else if e = 'r' then some '\r'
          else if e = 'b' then some (Char.ofNat 8)
          else if e = 'f' then some (Char.ofNat 12)
          else Option.none
        match d? with
        | Option.none => Option.none
        | some d =>
          match parseStrChars cs2 with
          | Option.none => Option.none
          | some (acc, rest) => some (d :: acc, rest)
    else
      match parseStrChars cs with
      | Option.none => Option.none
      | some (acc, rest) => some (c :: acc, rest)

/-- Split a leading run of decimal digits from the input. -/
def takeDigits : List Char → (List Char × List Char)
  | [] => ([], [])
  | c :: cs =>
    if c.isDigit then
      let (ds, rest) := takeDigits cs
      (c :: ds, rest)
    else ([], c :: cs)

/-- Decimal digits to a natural number. -/
def digitsToNat (ds : List Char) : Nat :=
  ds.foldl (fun n c => n * 10 + (c.toNat - 48)) 0

/-- After the digits of a number, `.`/`e`/`E` would start a float, which the
model does not support. -/
def numTermOk : List Char → Bool
  | [] => true
  | c :: _ => !(c = '.' || c = 'e' || c = 'E')

mutual

/-- Recursive-descent parser for one JSON value (fuelled). -/
def parseVal : Nat → List Char → Option (PyVal × List Char)
  | 0, _ => Option.none
  | fuel + 1, cs0 =>
    match skipWs cs0 with
    | [] => Option.none
    | c :: rest =>
      if c = 'n' then
        match rest with
        | 'u' :: 'l' :: 'l' :: r => some (PyVal.none, r)
        | _ => Option.none
      else if c = 't' then
        match rest with
        | 'r' :: 'u' :: 'e' :: r => some (PyVal.bool true, r)
        | _ => Option.none
      else if c = 'f' then
        match rest with
        | 'a' :: 'l' :: 's' :: 'e' :: r => some (PyVal.bool false, r)
        | _ => Option.none
      else if c = '"' then
        match parseStrChars rest with
        | some (chars, r) => some (PyVal.str (String.mk chars), r)
        | Option.none => Option.none
      else if c = '[' then
        match skipWs rest with
        | ']' :: r2 => some (PyVal.list [], r2)
        | r1 =>
          match parseElems fuel r1 with
          | some (vs, r2) => some (PyVal.list vs, r2)
          | Option.none => Option.none
      else if c = lbraceChar then
        match skipWs rest with
        | [] => Option.none
        | d :: r2 =>
          if d = rbraceChar then some (PyVal.dict [], r2)
          else
            match parseMembers fuel (d :: r2) with
            | some (kvs, r3) => some (PyVal.dict kvs, r3)
            | Option.none => Option.none
      else if c = '-' then
        match takeDigits rest with
        | ([], _) => Option.none
        | (ds, r) =>
          if numTermOk r then some (PyVal.int (-(digitsToNat ds : Int)), r)
          else Option.none
      else if c.isDigit then
        match takeDigits (c :: rest) with
        | (ds, r) =>
          if numTermOk r then some (PyVal.int (digitsToNat ds), r)
          else Option.none
      else Option.none

/-- Parse the comma-separated elements of a non-empty JSON array, up to and
including the closing bracket. -/
def parseElems : Nat → List Char → Option (List PyVal × List Char)
  | 0, _ => Option.none
  | fuel + 1, cs =>
    match parseVal fuel cs with
    | Option.none => Option.none
    | some (v, r) =>
      match skipWs r with
      | ',' :: r2 =>
        match parseElems fuel r2 with
        | some (vs, r3) => some (v :: vs, r3)
        | Option.none => Option.none
      | ']' :: r2 => some ([v], r2)
      | _ => Option.none

/-- Parse the comma-separated members of a non-empty JSON object, up to and
including the closing brace. -/
def parseMembers : Nat → List Char → Option (List (String × PyVal) × List Char)
  | 0, _ => Option.none
  | fuel + 1, cs =>
    match skipWs cs with
    | '"' :: r =>
      match parseStrChars r with
      | Option.none => Option.none
      | some (kchars, r1) =>
        match skipWs r1 with
        | ':' :: r3 =>
          match parseVal fuel r3 with
          | Option.none => Option.none
          | some (v, r4) =>
            match skipWs r4 with
            | ',' :: r6 =>
              match parseMembers fuel r6 with
              | some (kvs, r7) => some ((String.mk kchars, v) :: kvs, r7)
              | Option.none => Option.none
            | d :: r6 =>
              if d = rbraceChar then some ([(String.mk kchars, v)], r6)
              else Option.none
            | [] => Option.none
        | _ => Option.none
    | _ => Option.none

end

/-- Model of Python's `json.loads` on a full string: one JSON document,
optionally surrounded by whitespace; anything else (including trailing
data) raises `ValueError`, modelled by `Except.error`. -/
def json_loads (s : String) : Except Unit PyVal :=
  match parseVal (2 * s.data.length + 2) s.data with
  | some (v, rest) =>
    match skipWs rest with
    | [] => Except.ok v
    | _ :: _ => Except.error ()
  | Option.none => Except.error ()

/-- Python `v is None`. -/
def pyIsNone : PyVal → Bool
  | PyVal.none => true
  | _ => false

/-- The exceptions the script can raise: `AttributeError` (reading the
never-assigned `__body`), `KeyError` (dictionary lookup miss),
`ValueError` from `json.loads`, and the two Elasticsearch client errors
relevant to the calls made (`resource_already_exists` on creating an
existing index, `not found` on reading or deleting a missing index). -/
inductive RunError where
  | attributeError : RunError
  | keyError : RunError
  | jsonDecodeError : RunError
  | resourceAlreadyExists : RunError
  | notFound : RunError
deriving DecidableEq

/-- The `Reindexer` instance: the eight constructor-assigned fields and the
`__body` attribute, which only exists after `create_mapping` assigned it
(`Option.none` models "never assigned", so reading it raises
`AttributeError`). -/
structure Reindexer where
  host : String
  port : Nat
  mapping_file : String
  aliasName : String
  source_index : String
  target_index : String
  source_type : String
  target_type : String
  body : Option PyVal := Option.none

/-- The loop of `Reindexer.__get_mappings`: scan the lines of the mapping
file; at the first line whose `strip()` is non-empty, `json.loads` it,
store the result under `source_type`, and `break`. -/
def get_mappings_loop (st : String) (mapping : List (String × PyVal)) :
    List String → Except RunError (List (String × PyVal))
  | [] => Except.ok mapping
  | l :: rest =>
    if 0 < (pyStrip l.data).length then
      match json_loads l with
      | Except.error _ => Except.error RunError.jsonDecodeError
      | Except.ok v => Except.ok (dictSet mapping st v)
    else get_mappings_loop st mapping rest

/-- `Reindexer.__get_mappings` applied to the lines read from the mapping
file: start from `\x7btarget_type: \x7b\x7d\x7d` and run the loop. -/
def Reindexer.get_mappings (st tt : String) (fileLines : List String) :
    Except RunError (List (String × PyVal)) :=
  get_mappings_loop st [(tt, PyVal.dict [])] fileLines

/-- `Reindexer.create_mapping`, with the contents of the mapping file
(`readlines()` output) supplied as input: compute `__get_mappings`, set
`__body = None`, then if `mapping[target_type] is not None` set
`__body = \x7b"mappings": mapping\x7d`.  An exception from `json.loads`
propagates and leaves the instance unchanged. -/
def Reindexer.create_mapping (r : Reindexer) (fileLines : List String) :
    Except RunError Reindexer :=
  match Reindexer.get_mappings r.source_type r.target_type fileLines with
  | Except.error e => Except.error e
  | Except.ok mapping =>
    match dictGet mapping r.target_type with
    | Option.none => Except.error RunError.keyError
    | some v =>
      if pyIsNone v then Except.ok { r with body := some PyVal.none }
      else Except.ok { r with body := some (PyVal.dict [("mappings", PyVal.dict mapping)]) }

/-- `Reindexer.getMapping`: return `self.__body`; raises `AttributeError`
when the attribute was never assigned. -/
def Reindexer.getMapping (r : Reindexer) : Except RunError PyVal :=
  match r.body with
  | Option.none => Except.error RunError.attributeError
  | some b => Except.ok b

/-- `Reindexer.getHost`. -/
def Reindexer.getHost (r : Reindexer) : String := r.host

/-- `Reindexer.getSourceIndex`. -/
def Reindexer.getSourceIndex (r : Reindexer) : String := r.source_index

/-- `Reindexer.getTargetIndex`. -/
def Reindexer.getTargetIndex (r : Reindexer) : String := r.target_index

/-- `Reindexer.getAlias`. -/
def Reindexer.getAlias (r : Reindexer) : String := r.aliasName

/-- `Reindexer.getSourceType`. -/
def Reindexer.getSourceType (r : Reindexer) : String := r.source_type

/-- `Reindexer.getTargetType`. -/
def Reindexer.getTargetType (r : Reindexer) : String := r.target_type

/-- One index of the modelled Elasticsearch cluster: its name, the body it
was created with, and its documents (id, source). -/
structure ESIndex where
  name : String
  body : PyVal
  docs : List (String × PyVal)

/-- The modelled Elasticsearch cluster: the existing indices and the alias
bindings, as (index name, alias name) pairs. -/
structure ESState where
  indices : List ESIndex
  aliases : List (String × String)

/-- Look an index up by name. -/
def getIndex (s : ESState) (n : String) : Option ESIndex :=
  s.indices.find? (fun i => i.name == n)

/-- Does an index of this name exist? -/
def hasIndex (s : ESState) (n : String) : Bool :=
  (getIndex s n).isSome

/-- The indices an alias name currently resolves to. -/
def aliasIndices (s : ESState) (a : String) : List String :=
  (s.aliases.filter (fun p => p.2 == a)).map (fun p => p.1)

/-- `IndicesClient.create(index, body)` as documented: error
`resource_already_exists_exception` if an index of that name exists,
otherwise add a new empty index created with that body. -/
def esCreate (s : ESState) (n : String) (b : PyVal) : Except RunError ESState :=
  if hasIndex s n then Except.error RunError.resourceAlreadyExists
  else Except.ok { s with indices := s.indices ++ [⟨n, b, []⟩] }

/-- Replace the documents of the named index. -/
def setIndexDocs (s : ESState) (n : String) (docs : List (String × PyVal)) : ESState :=
  { s with indices := s.indices.map (fun i => if i.name == n then { i with docs := docs } else i) }

/-- Write documents into an index's document table, overwriting by id
(documents carry stable ids, so re-writing overwrites, not duplicates). -/
def upsertDocs (tgt : List (String × PyVal)) (newDocs : List (String × PyVal)) :
    List (String × PyVal) :=
  newDocs.foldl (fun acc d => dictSet acc d.1 d.2) tgt

/-- `helpers.reindex(client, source_index, target_index)` as documented:
scan every document of the source (a missing source raises
`NotFoundError`) and bulk-write them into the target; a missing target is
auto-created by the bulk write (default `auto_create_index`). -/
def esReindexHelper (s : ESState) (src tgt : String) : Except RunError ESState :=
  match getIndex s src with
  | Option.none => Except.error RunError.notFound
  | some srcIdx =>
    match getIndex s tgt with
    | some tgtIdx => Except.ok (setIndexDocs s tgt (upsertDocs tgtIdx.docs srcIdx.docs))
    | Option.none => Except.ok { s with indices := s.indices ++ [⟨tgt, PyVal.none, srcIdx.docs⟩] }

/-- `IndicesClient.delete(index)` as documented: `NotFoundError` if no such
index; otherwise remove the index, and with it every alias binding that
points at it. -/
def esDelete (s : ESState) (n : String) : Except RunError ESState :=
  if hasIndex s n then
    Except.ok { indices := s.indices.filter (fun i => !(i.name == n)),
                aliases := s.aliases.filter (fun p => !(p.1 == n)) }
  else Except.error RunError.notFound

/-- One action of an `update_aliases` request body. -/
inductive AliasAction where
  | add (index : String) (aliasName : String) : AliasAction
  | remove (index : String) (aliasName : String) : AliasAction
deriving DecidableEq

/-- Apply one alias action: `add` requires the index to exist and binds the
alias to it (a repeated `add` is a no-op); `remove` requires the binding to
exist and removes it. -/
def applyAliasAction (s : ESState) (a : AliasAction) : Except RunError ESState :=
  match a with
  | AliasAction.add i al =>
    if hasIndex s i then
      Except.ok { s with aliases := if s.aliases.contains (i, al) then s.aliases
                                    else s.aliases ++ [(i, al)] }
    else Except.error RunError.notFound
  | AliasAction.remove i al =>
    if s.aliases.contains (i, al) then
      Except.ok { s with aliases := s.aliases.filter (fun p => !(p == (i, al))) }
    else Except.error RunError.notFound

/-- `IndicesClient.update_aliases(body)` as documented: all actions are
applied in one atomic request — the cluster applies all of them or none
(on error the caller's state is unchanged). -/
def esUpdateAliases (s : ESState) (acts : List AliasAction) : Except RunError ESState :=
  match acts with
  | [] => Except.ok s
  | a :: rest =>
    match applyAliasAction s a with
    | Except.error e => Except.error e
    | Except.ok s2 => esUpdateAliases s2 rest

/-- The requests `Reindexer.reindex` sends to the cluster, in order. -/
inductive Request where
  | createIndex (index : String) (body : PyVal) : Request
  | reindexHelper (source : String) (target : String) : Request
  | deleteIndex (index : String) : Request
  | updateAliases (actions : List AliasAction) : Request

/-- Outcome of one `Reindexer.reindex` call: the exception it ended with
(if any), the cluster state it left behind, and the ordered trace of
requests it issued. -/
structure RunResult where
  error : Option RunError
  state : ESState
  trace : List Request

/-- `Reindexer.reindex`, line for line: read `self.__body` (raises
`AttributeError` if never assigned); `index_client.create(target_index,
body)`; `helpers.reindex(source_index, target_index)`; build the alias
body with the single add action (the remove action is commented out in the
source); `index_client.delete(source_index)`; and only then
`index_client.update_aliases(alias_body)`.  A raised exception propagates:
the later calls are not issued and the cluster keeps the state of the last
completed call. -/
def Reindexer.reindex (r : Reindexer) (s : ESState) : RunResult :=
  match r.body with
  | Option.none => ⟨some RunError.attributeError, s, []⟩
  | some b =>
    let req1 := Request.createIndex r.target_index b
    match esCreate s r.target_index b with
    | Except.error e => ⟨some e, s, [req1]⟩
    | Except.ok s1 =>
      let req2 := Request.reindexHelper r.source_index r.target_index
      match esReindexHelper s1 r.source_index r.target_index with
      | Except.error e => ⟨some e, s1, [req1, req2]⟩
      | Except.ok s2 =>
        let aliasActions := [AliasAction.add r.target_index r.aliasName]
        let req3 := Request.deleteIndex r.source_index
        match esDelete s2 r.source_index with
        | Except.error e => ⟨some e, s2, [req1, req2, req3]⟩
        | Except.ok s3 =>
          let req4 := Request.updateAliases aliasActions
          match esUpdateAliases s3 aliasActions with
          | Except.error e => ⟨some e, s3, [req1, req2, req3, req4]⟩
          | Except.ok s4 => ⟨Option.none, s4, [req1, req2, req3, req4]⟩

/-- A method call on a `Reindexer` instance that could mutate it:
`create_mapping` (with the lines its file read returns) or `reindex`
(against some cluster state).  The getters are read-only. -/
inductive Call where
  | create_mapping_call (fileLines : List String) : Call
  | reindex_call (s : ESState) : Call

/-- Effect of one call on the instance: `create_mapping` replaces the
instance by its updated self (an exception leaves it unchanged);
`reindex` assigns no attribute at all. -/
def applyCall (r : Reindexer) : Call → Reindexer
  | Call.create_mapping_call fileLines =>
    match Reindexer.create_mapping r fileLines with
    | Except.ok r2 => r2
    | Except.error _ => r
  | Call.reindex_call _ => r

/-- Run a sequence of method calls on an instance. -/
def runCalls (r : Reindexer) (calls : List Call) : Reindexer :=
  calls.foldl applyCall r

/-- The mapping body the example reindexer carries after `create_mapping`:
`\x7b"mappings": \x7b"doc": \x7b"properties": ...\x7d\x7d\x7d`. -/
def ordersBody : PyVal :=
  PyVal.dict [("mappings", PyVal.dict
    [("doc", PyVal.dict [("properties", PyVal.dict
      [("name", PyVal.dict [("type", PyVal.str "text")])])])])]

/-- Example instance: migrate `orders_v1` to `orders_v2` behind the alias
`orders`, with the body already assigned by `create_mapping`. -/
def ordersReindexer : Reindexer :=
  { host := "localhost", port := 9200, mapping_file := "mapping.json",
    aliasName := "orders", source_index := "orders_v1", target_index := "orders_v2",
    source_type := "doc", target_type := "doc", body := some ordersBody }

/-- Example cluster: the source index `orders_v1` holds two documents and
carries the alias `orders`; the target does not exist yet. -/
def ordersCluster : ESState :=
  { indices := [⟨"orders_v1", PyVal.none, [("1", PyVal.str "a"), ("2", PyVal.str "b")]⟩],
    aliases := [("orders_v1", "orders")] }

/-- `ordersCluster` after the create of `orders_v2`. -/
def ordersAfterCreate : ESState :=
  { indices := [⟨"orders_v1", PyVal.none, [("1", PyVal.str "a"), ("2", PyVal.str "b")]⟩,
                ⟨"orders_v2", ordersBody, []⟩],
    aliases := [("orders_v1", "orders")] }

/-- `ordersAfterCreate` after the bulk copy into `orders_v2`. -/
def ordersAfterCopy : ESState :=
  { indices := [⟨"orders_v1", PyVal.none, [("1", PyVal.str "a"), ("2", PyVal.str "b")]⟩,
                ⟨"orders_v2", ordersBody, [("1", PyVal.str "a"), ("2", PyVal.str "b")]⟩],
    aliases := [("orders_v1", "orders")] }

/-- `ordersAfterCopy` after the delete of `orders_v1`: the delete also
dropped the alias binding, so at this point (after the third issued request
and before the fourth) the alias `orders` resolves to nothing. -/
def ordersAfterDelete : ESState :=
  { indices := [⟨"orders_v2", ordersBody, [("1", PyVal.str "a"), ("2", PyVal.str "b")]⟩],
    aliases := [] }

/-- Example cluster in which the target index already exists, created with
exactly the body the example reindexer would send (identical mapping). -/
def ordersClusterTargetExists : ESState :=
  { indices := [⟨"orders_v1", PyVal.none, [("1", PyVal.str "a")]⟩,
                ⟨"orders_v2", ordersBody, []⟩],
    aliases := [("orders_v1", "orders")] }

/-- Example cluster in which the source index does not exist. -/
def ordersClusterNoSource : ESState :=
  { indices := [], aliases := [] }

/-- Example instance on which `create_mapping` has not been called yet:
the `__body` attribute was never assigned. -/
def freshReindexer : Reindexer :=
  { host := "localhost", port := 9200, mapping_file := "mapping.json",
    aliasName := "orders", source_index := "orders_v1", target_index := "orders_v2",
    source_type := "doc", target_type := "doc" }

theorem esCreate_ok {s s' : ESState} {n : String} {b : PyVal}
    (h : esCreate s n b = Except.ok s') :
    s'.indices = s.indices ++ [⟨n, b, []⟩] ∧ s'.aliases = s.aliases ∧
    hasIndex s n = false := by
  unfold esCreate at h
  split at h
  · exact absurd h (by simp)
  · rename_i hn
    injection h with h
    subst h
    exact ⟨rfl, rfl, by simpa using hn⟩

theorem esReindexHelper_ok_aliases {s s' : ESState} {src tgt : String}
    (h : esReindexHelper s src tgt = Except.ok s') : s'.aliases = s.aliases := by
  unfold esReindexHelper at h
  split at h
  · exact absurd h (by simp)
  · split at h
    · injection h with h; subst h; rfl
    · injection h with h; subst h; rfl

theorem esDelete_ok {s s' : ESState} {n : String}
    (h : esDelete s n = Except.ok s') :
    s'.indices = s.indices.filter (fun i => !(i.name == n)) ∧
    s'.aliases = s.aliases.filter (fun p => !(p.1 == n)) ∧
    hasIndex s n = true := by
  unfold esDelete at h
  split at h
  · rename_i hn
    injection h with h
    subst h
    exact ⟨rfl, rfl, hn⟩
  · exact absurd h (by simp)

theorem esUpdateAliases_single_add_ok {s s' : ESState} {i a : String}
    (h : esUpdateAliases s [AliasAction.add i a] = Except.ok s') :
    hasIndex s i = true ∧ s'.indices = s.indices ∧
    s'.aliases = (if s.aliases.contains (i, a) then s.aliases
                  else s.aliases ++ [(i, a)]) := by
  by_cases hi : hasIndex s i = true
  · have happ : esUpdateAliases s [AliasAction.add i a] =
        Except.ok { s with aliases := if s.aliases.contains (i, a) then s.aliases
                                      else s.aliases ++ [(i, a)] } := by
      simp [esUpdateAliases, applyAliasAction, hi]
    rw [happ] at h
    injection h with h
    rw [← h]
    exact ⟨hi, rfl, rfl⟩
  · have happ : esUpdateAliases s [AliasAction.add i a] =
        Except.error RunError.notFound := by
      simp [esUpdateAliases, applyAliasAction, hi]
    rw [happ] at h
    exact absurd h (by simp)

theorem hasIndex_eq_of_indices_eq {s t : ESState} (h : s.indices = t.indices)
    (n : String) : hasIndex s n = hasIndex t n := by
  unfold hasIndex getIndex
  rw [h]

theorem reindex_ok_decomp {r : Reindexer} {s : ESState}
    (h : (Reindexer.reindex r s).error = Option.none) :
    ∃ b s1 s2 s3 s4,
      r.body = some b ∧
      esCreate s r.target_index b = Except.ok s1 ∧
      esReindexHelper s1 r.source_index r.target_index = Except.ok s2 ∧
      esDelete s2 r.source_index = Except.ok s3 ∧
      esUpdateAliases s3 [AliasAction.add r.target_index r.aliasName] = Except.ok s4 ∧
      Reindexer.reindex r s =
        ⟨Option.none, s4,
         [Request.createIndex r.target_index b,
          Request.reindexHelper r.source_index r.target_index,
          Request.deleteIndex r.source_index,
          Request.updateAliases [AliasAction.add r.target_index r.aliasName]]⟩ := by
  cases hb : r.body with
  | none => simp [Reindexer.reindex, hb] at h
  | some b =>
    cases hc : esCreate s r.target_index b with
    | error e => simp [Reindexer.reindex, hb, hc] at h
    | ok s1 =>
      cases hr : esReindexHelper s1 r.source_index r.target_index with
      | error e => simp [Reindexer.reindex, hb, hc, hr] at h
      | ok s2 =>
        cases hd : esDelete s2 r.source_index with
        | error e => simp [Reindexer.reindex, hb, hc, hr, hd] at h
        | ok s3 =>
          cases hu : esUpdateAliases s3 [AliasAction.add r.target_index r.aliasName] with
          | error e => simp [Reindexer.reindex, hb, hc, hr, hd, hu] at h
          | ok s4 =>
            exact ⟨b, s1, s2, s3, s4, rfl, hc, hr, hd, hu,
              by simp [Reindexer.reindex, hb, hc, hr, hd, hu]⟩

theorem get_mappings_loop_eq_find (st : String) (m : List (String × PyVal))
    (lines : List String) :
    get_mappings_loop st m lines =
      match lines.find? (fun l => decide (0 < (pyStrip l.data).length)) with
      | Option.none => Except.ok m
      | some l =>
        match json_loads l with
        | Except.error _ => Except.error RunError.jsonDecodeError
        | Except.ok v => Except.ok (dictSet m st v) := by
  induction lines with
  | nil => rfl
  | cons l rest ih =>
    by_cases hl : 0 < (pyStrip l.data).length
    · rw [List.find?_cons_of_pos _ (by simpa using hl)]
      simp only [get_mappings_loop, if_pos hl]
    · rw [List.find?_cons_of_neg _ (by simpa using hl)]
      rw [← ih]
      simp only [get_mappings_loop, if_neg hl]

theorem get_mappings_eq_find (st tt : String) (lines : List String) :
    Reindexer.get_mappings st tt lines =
      match lines.find? (fun l => decide (0 < (pyStrip l.data).length)) with
      | Option.none => Except.ok [(tt, PyVal.dict [])]
      | some l =>
        match json_loads l with
        | Except.error _ => Except.error RunError.jsonDecodeError
        | Except.ok v => Except.ok (dictSet [(tt, PyVal.dict [])] st v) :=
  get_mappings_loop_eq_find st [(tt, PyVal.dict [])] lines

theorem find?_append_of_some {α : Type} {p : α → Bool} {l1 : List α} {x : α}
    (h : l1.find? p = some x) (l2 : List α) : (l1 ++ l2).find? p = some x := by
  rw [List.find?_append, h]
  rfl

theorem filter_alias_of_only_source {l : List (String × String)} {a src : String}
    (h : ∀ i, (i, a) ∈ l → i = src) :
    List.filter (fun p => p.2 == a) (List.filter (fun p => !(p.1 == src)) l) = [] := by
  rw [List.filter_eq_nil_iff]
  intro p hp
  obtain ⟨p1, p2⟩ := p
  rcases List.mem_filter.mp hp with ⟨hpl, hps⟩
  intro hpa
  have hp2 : p2 = a := by simpa using hpa
  have hp1 : p1 ≠ src := by simpa using hps
  exact hp1 (h p1 (hp2 ▸ hpl))

theorem create_mapping_ok_decomp {r r' : Reindexer} {fl : List String}
    (h : Reindexer.create_mapping r fl = Except.ok r') :
    ∃ m v,
      Reindexer.get_mappings r.source_type r.target_type fl = Except.ok m ∧
      dictGet m r.target_type = some v ∧
      r' = { r with body := some (if pyIsNone v then PyVal.none
                                  else PyVal.dict [("mappings", PyVal.dict m)]) } := by
  unfold Reindexer.create_mapping at h
  split at h
  · exact absurd h (by simp)
  · rename_i m hm
    split at h
    · exact absurd h (by simp)
    · rename_i v hv
      by_cases hn : pyIsNone v = true
      · rw [if_pos hn] at h
        injection h with h
        exact ⟨m, v, hm, hv, by rw [← h, if_pos hn]⟩
      · rw [if_neg hn] at h
        injection h with h
        exact ⟨m, v, hm, hv, by rw [← h, if_neg hn]⟩

theorem create_mapping_fields {r r' : Reindexer} {fl : List String}
    (h : Reindexer.create_mapping r fl = Except.ok r') :
    r'.host = r.host ∧ r'.source_index = r.source_index ∧
    r'.target_index = r.target_index ∧ r'.aliasName = r.aliasName ∧
    r'.source_type = r.source_type ∧ r'.target_type = r.target_type := by
  obtain ⟨m, v, -, -, rfl⟩ := create_mapping_ok_decomp h
  exact ⟨rfl, rfl, rfl, rfl, rfl, rfl⟩

theorem applyCall_fields (r : Reindexer) (c : Call) :
    (applyCall r c).host = r.host ∧ (applyCall r c).source_index = r.source_index ∧
    (applyCall r c).target_index = r.target_index ∧
    (applyCall r c).aliasName = r.aliasName ∧
    (applyCall r c).source_type = r.source_type ∧
    (applyCall r c).target_type = r.target_type := by
  cases c with
  | reindex_call s => exact ⟨rfl, rfl, rfl, rfl, rfl, rfl⟩
  | create_mapping_call fl =>
    cases hcm : Reindexer.create_mapping r fl with
    | error e =>
      have he : applyCall r (Call.create_mapping_call fl) = r := by
        simp [applyCall, hcm]
      rw [he]
      exact ⟨rfl, rfl, rfl, rfl, rfl, rfl⟩
    | ok r2 =>
      have he : applyCall r (Call.create_mapping_call fl) = r2 := by
        simp [applyCall, hcm]
      rw [he]
      exact create_mapping_fields hcm

/-- C1: the claim states that during the cutover performed by `reindex` the
alias-add request is issued and confirmed before the delete of the source
index, so that the alias never points at zero indices.  The code does the
opposite: at the example migration the run succeeds with the delete of
`orders_v1` issued as the third request and the alias update only as the
fourth, and in the intermediate cluster state reached after the delete the
alias `orders` resolves to zero indices (it resolved to `orders_v1`
initially). -/
theorem reindex_issues_delete_before_alias_update :
    (Reindexer.reindex ordersReindexer ordersCluster).error = Option.none ∧
    (Reindexer.reindex ordersReindexer ordersCluster).trace =
      [Request.createIndex "orders_v2" ordersBody,
       Request.reindexHelper "orders_v1" "orders_v2",
       Request.deleteIndex "orders_v1",
       Request.updateAliases [AliasAction.add "orders_v2" "orders"]] ∧
    esCreate ordersCluster "orders_v2" ordersBody = Except.ok ordersAfterCreate ∧
    esReindexHelper ordersAfterCreate "orders_v1" "orders_v2" =
      Except.ok ordersAfterCopy ∧
    esDelete ordersAfterCopy "orders_v1" = Except.ok ordersAfterDelete ∧
    aliasIndices ordersCluster "orders" = ["orders_v1"] ∧
    aliasIndices ordersAfterDelete "orders" = [] :=
  ⟨rfl, rfl, rfl, rfl, rfl, rfl, rfl⟩

/-- C2 counterexample: running the migration to completion and re-running
it with the same parameters is not a no-op — at the example migration the
first run succeeds and the second run fails with
`resource_already_exists` on its re-issued create request. -/
theorem reindex_rerun_not_noop :
    (Reindexer.reindex ordersReindexer ordersCluster).error = Option.none ∧
    (Reindexer.reindex ordersReindexer
      (Reindexer.reindex ordersReindexer ordersCluster).state).error =
        some RunError.resourceAlreadyExists :=
  ⟨rfl, rfl⟩

/-- C2 amended: re-running `reindex` after a completed run is never a
no-op: the script tracks no completed work, re-issues the create of the
target index, and that create fails with `resource_already_exists` because
every successful run leaves the target index in the cluster; the second
run aborts there and changes nothing. -/
theorem reindex_rerun_always_fails (r : Reindexer) (s : ESState)
    (h : (Reindexer.reindex r s).error = Option.none) :
    ∃ b, r.body = some b ∧
      Reindexer.reindex r ((Reindexer.reindex r s).state) =
        ⟨some RunError.resourceAlreadyExists, (Reindexer.reindex r s).state,
         [Request.createIndex r.target_index b]⟩ := by
  obtain ⟨b, s1, s2, s3, s4, hb, hc, hr, hd, hu, heq⟩ := reindex_ok_decomp h
  obtain ⟨hi3, hind, -⟩ := esUpdateAliases_single_add_ok hu
  have ht4 : hasIndex s4 r.target_index = true := by
    rw [hasIndex_eq_of_indices_eq hind]
    exact hi3
  have hstate : (Reindexer.reindex r s).state = s4 := by rw [heq]
  have hcreate : esCreate s4 r.target_index b =
      Except.error RunError.resourceAlreadyExists := by
    unfold esCreate
    rw [if_pos ht4]
  rw [hstate]
  exact ⟨b, hb, by simp [Reindexer.reindex, hb, hcreate]⟩

theorem reindex_rerun_always_fails_witness :
    (Reindexer.reindex ordersReindexer ordersCluster).error = Option.none ∧
    ∃ b, ordersReindexer.body = some b ∧
      Reindexer.reindex ordersReindexer
        ((Reindexer.reindex ordersReindexer ordersCluster).state) =
          ⟨some RunError.resourceAlreadyExists,
           (Reindexer.reindex ordersReindexer ordersCluster).state,
           [Request.createIndex "orders_v2" b]⟩ :=
  ⟨rfl, reindex_rerun_always_fails ordersReindexer ordersCluster rfl⟩

/-- C3 counterexample: the target index `orders_v2` already exists and was
created with exactly the body the reindexer sends (an identical mapping),
yet `reindex` fails with `resource_already_exists` instead of treating the
create as success. -/
theorem reindex_existing_identical_target_errors :
    getIndex ordersClusterTargetExists "orders_v2" =
      some ⟨"orders_v2", ordersBody, []⟩ ∧
    ordersReindexer.body = some ordersBody ∧
    Reindexer.reindex ordersReindexer ordersClusterTargetExists =
      ⟨some RunError.resourceAlreadyExists, ordersClusterTargetExists,
       [Request.createIndex "orders_v2" ordersBody]⟩ :=
  ⟨rfl, rfl, rfl⟩

/-- C3 amended: creating the target index when an index of that name
already exists — identical mapping or not — is an error, not a success:
the create call raises `resource_already_exists`, the exception propagates
out of `reindex`, and the run stops with the cluster unchanged. -/
theorem reindex_existing_target_always_errors (r : Reindexer) (s : ESState)
    (b : PyVal) (hb : r.body = some b) (ht : hasIndex s r.target_index = true) :
    Reindexer.reindex r s =
      ⟨some RunError.resourceAlreadyExists, s,
       [Request.createIndex r.target_index b]⟩ := by
  have hc : esCreate s r.target_index b =
      Except.error RunError.resourceAlreadyExists := by
    unfold esCreate
    rw [if_pos ht]
  simp [Reindexer.reindex, hb, hc]

theorem reindex_existing_target_always_errors_witness :
    ordersReindexer.body = some ordersBody ∧
    hasIndex ordersClusterTargetExists "orders_v2" = true ∧
    Reindexer.reindex ordersReindexer ordersClusterTargetExists =
      ⟨some RunError.resourceAlreadyExists, ordersClusterTargetExists,
       [Request.createIndex "orders_v2" ordersBody]⟩ :=
  ⟨rfl, rfl, reindex_existing_target_always_errors ordersReindexer
    ordersClusterTargetExists ordersBody rfl rfl⟩

/-- C4: if the create of the target index fails, the migration stops with
the cluster exactly as it was: the source index and its documents are
untouched, the aliases are unchanged, and neither the document copy nor
the alias update nor the source-index delete is issued — the request trace
holds only the failed create. -/
theorem reindex_stops_after_failed_create (r : Reindexer) (s : ESState)
    (b : PyVal) (e : RunError) (hb : r.body = some b)
    (hc : esCreate s r.target_index b = Except.error e) :
    Reindexer.reindex r s = ⟨some e, s, [Request.createIndex r.target_index b]⟩ := by
  simp [Reindexer.reindex, hb, hc]

theorem reindex_stops_after_failed_create_witness :
    ordersReindexer.body = some ordersBody ∧
    esCreate ordersClusterTargetExists "orders_v2" ordersBody =
      Except.error RunError.resourceAlreadyExists ∧
    Reindexer.reindex ordersReindexer ordersClusterTargetExists =
      ⟨some RunError.resourceAlreadyExists, ordersClusterTargetExists,
       [Request.createIndex "orders_v2" ordersBody]⟩ :=
  ⟨rfl, rfl, reindex_stops_after_failed_create ordersReindexer
    ordersClusterTargetExists ordersBody RunError.resourceAlreadyExists rfl rfl⟩

/-- C6 counterexample: a missing source index is not treated as success —
the run fails with a not-found error (raised already at the copy step),
and no delete request is issued at all, so nowhere does the run turn
not_found into a non-error outcome. -/
theorem reindex_missing_source_not_success :
    hasIndex ordersClusterNoSource "orders_v1" = false ∧
    (Reindexer.reindex ordersReindexer ordersClusterNoSource).error =
      some RunError.notFound ∧
    (Reindexer.reindex ordersReindexer ordersClusterNoSource).trace =
      [Request.createIndex "orders_v2" ordersBody,
       Request.reindexHelper "orders_v1" "orders_v2"] :=
  ⟨rfl, rfl, rfl⟩

/-- C8: calling `reindex` or `getMapping` on an instance on which
`create_mapping` has not run raises `AttributeError`: the `__body`
attribute is read unconditionally by both, so `reindex` raises before
issuing any request and leaves the cluster untouched, and `getMapping`
raises as well. -/
theorem uninitialized_body_raises_attribute_error (r : Reindexer) (s : ESState)
    (h : r.body = Option.none) :
    Reindexer.reindex r s = ⟨some RunError.attributeError, s, []⟩ ∧
    Reindexer.getMapping r = Except.error RunError.attributeError := by
  constructor
  · simp [Reindexer.reindex, h]
  · simp [Reindexer.getMapping, h]

theorem uninitialized_body_raises_attribute_error_witness :
    freshReindexer.body = Option.none ∧
    Reindexer.reindex freshReindexer ordersCluster =
      ⟨some RunError.attributeError, ordersCluster, []⟩ ∧
    Reindexer.getMapping freshReindexer = Except.error RunError.attributeError :=
  ⟨rfl, (uninitialized_body_raises_attribute_error freshReindexer ordersCluster rfl).1,
   (uninitialized_body_raises_attribute_error freshReindexer ordersCluster rfl).2⟩

/-- C9 counterexample: with `source_type = target_type = "doc"` and a
mapping file whose first non-empty line is the JSON document `null`
(`json.loads` returns `None`), `__get_mappings` binds the target type to
`None` rather than a dict, the guard `mapping[target_type] is not None`
fails, and `create_mapping` leaves `__body = None` instead of
`\x7b"mappings": mapping\x7d`. -/
theorem create_mapping_null_line_gives_body_none :
    json_loads "null\n" = Except.ok PyVal.none ∧
    freshReindexer.source_type = freshReindexer.target_type ∧
    Reindexer.create_mapping freshReindexer ["null\n"] =
      Except.ok { freshReindexer with body := some PyVal.none } :=
  ⟨rfl, rfl, rfl⟩

/-- C5: the mapping `__get_mappings` produces is derived solely from the
first line of the file whose `strip()` is non-empty, parsed as one JSON
document and stored under `source_type` next to the initial
`\x7btarget_type: \x7b\x7d\x7d` entry; every later line is ignored — in
particular, appending arbitrary lines to a file that already has a
non-empty line cannot change the result. -/
theorem get_mappings_only_first_nonblank_line (st tt : String) (lines : List String) :
    (Reindexer.get_mappings st tt lines =
      match lines.find? (fun l => decide (0 < (pyStrip l.data).length)) with
      | Option.none => Except.ok [(tt, PyVal.dict [])]
      | some l =>
        match json_loads l with
        | Except.error _ => Except.error RunError.jsonDecodeError
        | Except.ok v => Except.ok (dictSet [(tt, PyVal.dict [])] st v)) ∧
    ∀ extra : List String,
      lines.any (fun l => decide (0 < (pyStrip l.data).length)) = true →
      Reindexer.get_mappings st tt (lines ++ extra) =
        Reindexer.get_mappings st tt lines := by
  refine ⟨get_mappings_eq_find st tt lines, ?_⟩
  intro extra hany
  have hsome : (lines.find? (fun l => decide (0 < (pyStrip l.data).length))).isSome := by
    rw [List.find?_isSome]
    exact List.any_eq_true.mp hany
  obtain ⟨x, hx⟩ := Option.isSome_iff_exists.mp hsome
  rw [get_mappings_eq_find st tt (lines ++ extra), get_mappings_eq_find st tt lines,
      hx, find?_append_of_some hx extra]

theorem get_mappings_only_first_nonblank_line_witness :
    (["", "true\n", "17"].any (fun l => decide (0 < (pyStrip l.data).length))) = true ∧
    Reindexer.get_mappings "doc" "doc" (["", "true\n", "17"] ++ ["junk"]) =
      Reindexer.get_mappings "doc" "doc" ["", "true\n", "17"] ∧
    Reindexer.get_mappings "doc" "doc" ["", "true\n", "17"] =
      Except.ok [("doc", PyVal.bool true)] :=
  ⟨rfl, (get_mappings_only_first_nonblank_line "doc" "doc" ["", "true\n", "17"]).2
    ["junk"] rfl, rfl⟩

/-- C10: neither `create_mapping` nor `reindex` modifies the
constructor-supplied fields: after any sequence of such method calls the
six getters return exactly the values passed to the constructor
(`reindex` assigns no attribute at all, and `create_mapping` assigns only
`__body`). -/
theorem getters_unchanged_by_calls (r : Reindexer) (calls : List Call) :
    Reindexer.getHost (runCalls r calls) = Reindexer.getHost r ∧
    Reindexer.getSourceIndex (runCalls r calls) = Reindexer.getSourceIndex r ∧
    Reindexer.getTargetIndex (runCalls r calls) = Reindexer.getTargetIndex r ∧
    Reindexer.getAlias (runCalls r calls) = Reindexer.getAlias r ∧
    Reindexer.getSourceType (runCalls r calls) = Reindexer.getSourceType r ∧
    Reindexer.getTargetType (runCalls r calls) = Reindexer.getTargetType r := by
  induction calls generalizing r with
  | nil => exact ⟨rfl, rfl, rfl, rfl, rfl, rfl⟩
  | cons c rest ih =>
    have h1 := applyCall_fields r c
    have h2 := ih (applyCall r c)
    exact ⟨h2.1.trans h1.1,
           h2.2.1.trans h1.2.1,
           h2.2.2.1.trans h1.2.2.1,
           h2.2.2.2.1.trans h1.2.2.2.1,
           h2.2.2.2.2.1.trans h1.2.2.2.2.1,
           h2.2.2.2.2.2.trans h1.2.2.2.2.2⟩

theorem getIndex_none {s : ESState} {m : String} (h : hasIndex s m = false) :
    getIndex s m = Option.none := by
  cases hg : getIndex s m with
  | none => rfl
  | some x =>
    unfold hasIndex at h
    rw [hg] at h
    simp at h

/-- C6 amended: the script never treats a missing index as success: the
delete is issued without `ignore=[404]`, and a run in which the source
index does not exist already fails with a not-found error at the copy
step, so the delete request is never reached at all — the run aborts with
the error instead of reporting success. -/
theorem reindex_missing_source_always_fails (r : Reindexer) (s : ESState)
    (b : PyVal) (hb : r.body = some b)
    (hsrc : hasIndex s r.source_index = false)
    (htgt : hasIndex s r.target_index = false)
    (hne : r.source_index ≠ r.target_index) :
    (Reindexer.reindex r s).error = some RunError.notFound ∧
    (Reindexer.reindex r s).trace =
      [Request.createIndex r.target_index b,
       Request.reindexHelper r.source_index r.target_index] := by
  have hc : esCreate s r.target_index b =
      Except.ok { s with indices := s.indices ++ [⟨r.target_index, b, []⟩] } := by
    unfold esCreate
    rw [if_neg (by simp [htgt])]
  have hget : getIndex { s with indices := s.indices ++ [⟨r.target_index, b, []⟩] }
      r.source_index = Option.none := by
    unfold getIndex
    rw [List.find?_append]
    have h1 : s.indices.find? (fun i => i.name == r.source_index) = Option.none :=
      getIndex_none hsrc
    have h2 : List.find? (fun i => i.name == r.source_index)
        [(⟨r.target_index, b, []⟩ : ESIndex)] = Option.none := by
      have hbeq : ((⟨r.target_index, b, []⟩ : ESIndex).name == r.source_index) = false := by
        simp
        exact fun hcc => absurd hcc.symm hne
      simp [List.find?, hbeq]
    rw [h1, h2]
    rfl
  have hr : esReindexHelper { s with indices := s.indices ++ [⟨r.target_index, b, []⟩] }
      r.source_index r.target_index = Except.error RunError.notFound := by
    unfold esReindexHelper
    rw [hget]
  constructor
  · simp [Reindexer.reindex, hb, hc, hr]
  · simp [Reindexer.reindex, hb, hc, hr]

theorem reindex_missing_source_always_fails_witness :
    ordersReindexer.body = some ordersBody ∧
    hasIndex ordersClusterNoSource "orders_v1" = false ∧
    hasIndex ordersClusterNoSource "orders_v2" = false ∧
    ("orders_v1" : String) ≠ "orders_v2" ∧
    (Reindexer.reindex ordersReindexer ordersClusterNoSource).error =
      some RunError.notFound ∧
    (Reindexer.reindex ordersReindexer ordersClusterNoSource).trace =
      [Request.createIndex "orders_v2" ordersBody,
       Request.reindexHelper "orders_v1" "orders_v2"] :=
  ⟨rfl, rfl, rfl, by decide,
   (reindex_missing_source_always_fails ordersReindexer ordersClusterNoSource
     ordersBody rfl rfl rfl (by decide)).1,
   (reindex_missing_source_always_fails ordersReindexer ordersClusterNoSource
     ordersBody rfl rfl rfl (by decide)).2⟩

/-- C7: after a successful run of `reindex` on a cluster in which the alias
was bound to at most the source index (the migration precondition: the
alias belongs to the index being replaced), the alias resolves to the
target index and to no other index — in particular not to the source
index, which the run deleted. -/
theorem reindex_success_alias_resolves_to_target_only (r : Reindexer) (s : ESState)
    (h : (Reindexer.reindex r s).error = Option.none)
    (hinit : ∀ i, (i, r.aliasName) ∈ s.aliases → i = r.source_index) :
    aliasIndices (Reindexer.reindex r s).state r.aliasName = [r.target_index] := by
  obtain ⟨b, s1, s2, s3, s4, hb, hc, hr, hd, hu, heq⟩ := reindex_ok_decomp h
  obtain ⟨-, hal1, -⟩ := esCreate_ok hc
  have hal2 := esReindexHelper_ok_aliases hr
  obtain ⟨-, hal3, -⟩ := esDelete_ok hd
  obtain ⟨-, -, hal4⟩ := esUpdateAliases_single_add_ok hu
  have hs3 : s3.aliases = s.aliases.filter (fun p => !(p.1 == r.source_index)) := by
    rw [hal3, hal2, hal1]
  have hnotmem : (r.target_index, r.aliasName) ∉ s3.aliases := by
    intro hmem
    rw [hs3] at hmem
    rcases List.mem_filter.mp hmem with ⟨hmem2, hfn⟩
    have hts : r.target_index = r.source_index := hinit _ hmem2
    simp [hts] at hfn
  have hcont : s3.aliases.contains (r.target_index, r.aliasName) = false := by
    simpa using hnotmem
  rw [heq]
  show aliasIndices s4 r.aliasName = [r.target_index]
  unfold aliasIndices
  rw [hal4, if_neg (by simpa using hnotmem), hs3, List.filter_append,
      filter_alias_of_only_source hinit]
  simp

theorem reindex_success_alias_resolves_to_target_only_witness :
    (Reindexer.reindex ordersReindexer ordersCluster).error = Option.none ∧
    aliasIndices (Reindexer.reindex ordersReindexer ordersCluster).state "orders" =
      ["orders_v2"] :=
  ⟨rfl, reindex_success_alias_resolves_to_target_only ordersReindexer ordersCluster rfl
    (by intro i hi; simp [ordersCluster] at hi; exact hi.1)⟩

theorem pyIsNone_iff {v : PyVal} : pyIsNone v = true ↔ v = PyVal.none := by
  cases v <;> simp [pyIsNone]

/-- C9 amended: after a `create_mapping` call that completes, the `__body`
attribute is always assigned (so the claim's "never None" holds as "never
missing"), but its value is `\x7b"mappings": mapping\x7d` in every case
except one: when `source_type` equals `target_type` and the first
non-empty line of the file parses to JSON `null`, `__get_mappings` binds
`target_type` to `None` (not a dict), the guard
`mapping[target_type] is not None` fails, and `__body` is left at `None`. -/
theorem create_mapping_body_characterised (r r' : Reindexer) (fl : List String)
    (h : Reindexer.create_mapping r fl = Except.ok r') :
    (∃ b, r'.body = some b) ∧
    (r'.body = some PyVal.none ↔
      (r.source_type = r.target_type ∧
       ∃ l, fl.find? (fun l2 => decide (0 < (pyStrip l2.data).length)) = some l ∧
            json_loads l = Except.ok PyVal.none)) := by
  obtain ⟨m, v, hm, hv, rfl⟩ := create_mapping_ok_decomp h
  refine ⟨⟨_, rfl⟩, ?_⟩
  dsimp only
  rw [get_mappings_eq_find] at hm
  cases hfind : fl.find? (fun l2 => decide (0 < (pyStrip l2.data).length)) with
  | none =>
    rw [hfind] at hm
    injection hm with hm
    subst hm
    have hveq : v = PyVal.dict [] := by
      simp [dictGet] at hv
      exact hv.symm
    subst hveq
    simp [pyIsNone]
  | some l =>
    rw [hfind] at hm
    have hm2 : (match json_loads l with
        | Except.error _ => Except.error RunError.jsonDecodeError
        | Except.ok v => Except.ok (dictSet [(r.target_type, PyVal.dict [])]
            r.source_type v)) = Except.ok m := hm
    cases hjson : json_loads l with
    | error e =>
      rw [hjson] at hm2
      exact absurd hm2 (by simp)
    | ok v0 =>
      rw [hjson] at hm2
      injection hm2 with hm2
      by_cases hst : r.source_type = r.target_type
      · have hmv : m = [(r.target_type, v0)] := by
          rw [← hm2]
          simp [dictSet, hst]
        subst hmv
        have hveq : v = v0 := by
          simp [dictGet] at hv
          exact hv.symm
        subst hveq
        constructor
        · intro hbody
          refine ⟨hst, l, rfl, ?_⟩
          by_cases hn : pyIsNone v = true
          · rw [pyIsNone_iff.mp hn] at hjson
            exact hjson
          · rw [if_neg hn] at hbody
            simp at hbody
        · rintro ⟨-, l2, hl2, hjson2⟩
          have hll : l2 = l := by
            injection hl2 with hl2
            exact hl2.symm
          subst hll
          rw [hjson] at hjson2
          injection hjson2 with hjson2
          rw [hjson2]
          simp [pyIsNone]
      · have hmv : m = [(r.target_type, PyVal.dict []), (r.source_type, v0)] := by
          rw [← hm2]
          simp [dictSet, Ne.symm hst]
        subst hmv
        have hveq : v = PyVal.dict [] := by
          simp [dictGet] at hv
          exact hv.symm
        subst hveq
        simp [pyIsNone, hst]

theorem create_mapping_body_characterised_witness :
    Reindexer.create_mapping freshReindexer ["null\n"] =
      Except.ok { freshReindexer with body := some PyVal.none } ∧
    (∃ b, ({ freshReindexer with body := some PyVal.none } : Reindexer).body = some b) ∧
    (({ freshReindexer with body := some PyVal.none } : Reindexer).body = some PyVal.none ↔
      (freshReindexer.source_type = freshReindexer.target_type ∧
       ∃ l, ["null\n"].find? (fun l2 => decide (0 < (pyStrip l2.data).length)) = some l ∧
            json_loads l = Except.ok PyVal.none)) :=
  ⟨rfl,
   (create_mapping_body_characterised freshReindexer
     { freshReindexer with body := some PyVal.none } ["null\n"] rfl).1,
   (create_mapping_body_characterised freshReindexer
     { freshReindexer with body := some PyVal.none } ["null\n"] rfl).2⟩
